import Mathlib

/-!
Verification of the inventory costing engine of obrasstock
(src/django/app/inventario/models.py), shallowly embedded in Lean 4.

Quantities and costs are modelled as exact rationals (the source uses
fixed-precision decimals). The database state is the pair of the stock
rows (`Existencia`, keyed by material and warehouse; an absent row is the
default row with stock 0 and average cost 0, matching `get_or_create`)
and the append-only ledger (`Kardex`). Fallible operations return
`Except`; an `Except.error` result carries no state, which models the
all-or-nothing transaction: on failure the caller keeps the prior
database unchanged.
-/

namespace ObrasStock

/-- Movement kinds of `Movimiento.TIPO_CHOICES`:
ENTRADA (receipt), SALIDA (issue), AJUSTE (adjustment). -/
inductive Tipo where
  | ENTRADA
  | SALIDA
  | AJUSTE
deriving DecidableEq, Repr

/-- Stock row (`Existencia`): quantity on hand and weighted-average unit cost
for one (material, warehouse) key. -/
structure Existencia where
  stock : ℚ
  costo_promedio : ℚ
deriving DecidableEq, Repr

/-- Movement line (`MovimientoDetalle`): material, quantity, optional unit cost. -/
structure MovimientoDetalle where
  material : Nat
  cantidad : ℚ
  costo_unitario : Option ℚ
deriving DecidableEq, Repr

/-- A movement (`Movimiento`) with its lines. -/
structure Movimiento where
  tipo : Tipo
  almacen : Nat
  detalles : List MovimientoDetalle
  aplicado : Bool
deriving DecidableEq, Repr

/-- Ledger row (`Kardex`). -/
structure Kardex where
  material : Nat
  almacen : Nat
  tipo : Tipo
  cantidad_entrada : ℚ
  cantidad_salida : ℚ
  costo_unitario : ℚ
  saldo_stock : ℚ
  saldo_costo_promedio : ℚ
deriving DecidableEq, Repr

/-- Database state: the stock rows and the append-only ledger. -/
structure DB where
  existencias : Nat → Nat → Existencia
  kardex : List Kardex

/-- Point update of the stock-row store at one (material, warehouse) key. -/
def setExistencia (f : Nat → Nat → Existencia) (m a : Nat) (e : Existencia) :
    Nat → Nat → Existencia :=
  fun m' a' => if m' = m ∧ a' = a then e else f m' a'

/-- Python truthiness of an optional decimal: `None` and zero are falsy
(the source tests `not det.costo_unitario`). -/
def falsy (o : Option ℚ) : Bool :=
  match o with
  | none => true
  | some c => c = 0

/-- One line of `aplicar_movimiento_promedio`: given the movement kind, the
warehouse, the current stock row and the line, produce the updated stock row
and the ledger row, or fail on insufficient stock. Mirrors the source:
AJUSTE with positive quantity is reclassified as ENTRADA, substituting the
current average cost when `costo_unitario` is falsy (absent or zero);
ENTRADA folds the incoming cost into the weighted average; SALIDA (and
non-positive AJUSTE) decreases stock, failing when the result would be
negative and negatives are disallowed. -/
def aplicarDetalle (allowNeg : Bool) (tipo : Tipo) (almacen : Nat)
    (existencia : Existencia) (det : MovimientoDetalle) :
    Except String (Existencia × Kardex) :=
  let cp := existencia.costo_promedio
  let st := existencia.stock
  let cant := det.cantidad
  let pair : Tipo × ℚ :=
    if tipo = Tipo.AJUSTE ∧ 0 < cant ∧ falsy det.costo_unitario = true then
      (Tipo.ENTRADA, cp)
    else if tipo = Tipo.AJUSTE ∧ 0 < cant then
      (Tipo.ENTRADA, det.costo_unitario.getD 0)
    else
      (tipo, det.costo_unitario.getD 0)
  let tipo_efectivo := pair.1
  let costo_in := pair.2
  if tipo_efectivo = Tipo.ENTRADA then
    let nuevo_stock := st + cant
    let nuevo_cp :=
      if 0 < nuevo_stock then ((st * cp) + (cant * costo_in)) / nuevo_stock else cp
    Except.ok
      ({ stock := nuevo_stock, costo_promedio := nuevo_cp },
       { material := det.material, almacen := almacen, tipo := tipo,
         cantidad_entrada := cant, cantidad_salida := 0,
         costo_unitario := costo_in, saldo_stock := nuevo_stock,
         saldo_costo_promedio := nuevo_cp })
  else
    let nuevo_stock := st - cant
    if nuevo_stock < 0 ∧ allowNeg = false then
      Except.error "Stock insuficiente"
    else
      Except.ok
        ({ stock := nuevo_stock, costo_promedio := cp },
         { material := det.material, almacen := almacen, tipo := tipo,
           cantidad_entrada := 0, cantidad_salida := cant,
           costo_unitario := cp, saldo_stock := nuevo_stock,
           saldo_costo_promedio := cp })

/-- The loop over the movement lines: each line reads the stock row for its
(material, warehouse) key, applies `aplicarDetalle`, writes the updated row
back and appends the ledger row. Any failing line fails the whole loop. -/
def aplicarLineas (allowNeg : Bool) (tipo : Tipo) (almacen : Nat)
    (db : DB) : List MovimientoDetalle → Except String DB
  | [] => Except.ok db
  | det :: rest =>
    match aplicarDetalle allowNeg tipo almacen (db.existencias det.material almacen) det with
    | Except.error e => Except.error e
    | Except.ok (ex, k) =>
        aplicarLineas allowNeg tipo almacen
          { existencias := setExistencia db.existencias det.material almacen ex,
            kardex := db.kardex ++ [k] } rest

/-- `aplicar_movimiento_promedio`: a no-op on an already-applied movement;
otherwise applies every line inside one transaction and flips `aplicado`. -/
def aplicar_movimiento_promedio (allowNeg : Bool) (db : DB) (mov : Movimiento) :
    Except String (DB × Movimiento) :=
  if mov.aplicado then Except.ok (db, mov)
  else
    match aplicarLineas allowNeg mov.tipo mov.almacen db mov.detalles with
    | Except.error e => Except.error e
    | Except.ok db' => Except.ok (db', { mov with aplicado := true })

/-- Transfer line (`TraspasoDetalle`): material, quantity, optional explicit
destination unit cost. -/
structure TraspasoDetalle where
  material : Nat
  cantidad : ℚ
  costo_unitario_destino : Option ℚ
deriving DecidableEq, Repr

/-- A transfer (`Traspaso`) between two warehouses. -/
structure Traspaso where
  almacen_origen : Nat
  almacen_destino : Nat
  detalles : List TraspasoDetalle
  aplicado : Bool
deriving DecidableEq, Repr

/-- The SALIDA movement line that `aplicar_traspaso` creates at the source
warehouse: same material and quantity, no unit cost. -/
def traspasoDetalleSalida (d : TraspasoDetalle) : MovimientoDetalle :=
  { material := d.material, cantidad := d.cantidad, costo_unitario := none }

/-- The ENTRADA movement line that `aplicar_traspaso` creates at the
destination: costed at the explicit destination override when present
(`is not None` in the source, so an explicit zero is kept), else at the
source row's average cost read from the post-issue state `db1`. -/
def traspasoDetalleEntrada (db1 : DB) (origen : Nat) (d : TraspasoDetalle) :
    MovimientoDetalle :=
  { material := d.material, cantidad := d.cantidad,
    costo_unitario :=
      some (d.costo_unitario_destino.getD
        ((db1.existencias d.material origen).costo_promedio)) }

/-- `aplicar_traspaso`: a no-op on an applied transfer; otherwise applies a
SALIDA movement at the source, then an ENTRADA movement at the destination
whose lines are costed from the post-issue source rows, then flips
`aplicado`. Failure of either leg fails the whole call. -/
def aplicar_traspaso (allowNeg : Bool) (db : DB) (t : Traspaso) :
    Except String (DB × Traspaso) :=
  if t.aplicado then Except.ok (db, t)
  else
    let mov_out : Movimiento :=
      { tipo := Tipo.SALIDA, almacen := t.almacen_origen,
        detalles := t.detalles.map traspasoDetalleSalida, aplicado := false }
    match aplicar_movimiento_promedio allowNeg db mov_out with
    | Except.error e => Except.error e
    | Except.ok (db1, _) =>
      let mov_in : Movimiento :=
        { tipo := Tipo.ENTRADA, almacen := t.almacen_destino,
          detalles := t.detalles.map (traspasoDetalleEntrada db1 t.almacen_origen),
          aplicado := false }
      match aplicar_movimiento_promedio allowNeg db1 mov_in with
      | Except.error e => Except.error e
      | Except.ok (db2, _) => Except.ok (db2, { t with aplicado := true })

/-- The incoming unit cost the engine effectively uses for a receipt-like
line: the current average cost when the line is a positive AJUSTE with a
falsy (absent or zero) `costo_unitario`, else the line's cost (0 if absent). -/
def costoEfectivo (tipo : Tipo) (existencia : Existencia) (det : MovimientoDetalle) : ℚ :=
  if tipo = Tipo.AJUSTE ∧ 0 < det.cantidad ∧ falsy det.costo_unitario = true then
    existencia.costo_promedio
  else det.costo_unitario.getD 0

/-- A single-line receipt detail built from a (quantity, cost) pair, used to
state the weighted-average invariant over a sequence of receipts. -/
def reciboDetalle (qc : ℚ × ℚ) : MovimientoDetalle :=
  { material := 0, cantidad := qc.1, costo_unitario := some qc.2 }

/-- The empty database: every stock row at (0, 0), no ledger rows. -/
def dbVacia : DB :=
  { existencias := fun _ _ => { stock := 0, costo_promedio := 0 }, kardex := [] }

/-! ### Helper lemmas -/

lemma setExistencia_same (f : Nat → Nat → Existencia) (m a : Nat) (e : Existencia) :
    setExistencia f m a e m a = e := by
  simp [setExistencia]

lemma setExistencia_ne (f : Nat → Nat → Existencia) (m a : Nat) (e : Existencia)
    (m' a' : Nat) (h : ¬(m' = m ∧ a' = a)) :
    setExistencia f m a e m' a' = f m' a' := by
  simp [setExistencia, h]

/-- An ENTRADA line never fails: it adds the quantity and folds the incoming cost
(the line's cost, 0 when absent) into the weighted average. -/
lemma aplicarDetalle_entrada (allowNeg : Bool) (alm : Nat) (ex : Existencia)
    (det : MovimientoDetalle) :
    aplicarDetalle allowNeg Tipo.ENTRADA alm ex det =
      Except.ok
        ({ stock := ex.stock + det.cantidad,
           costo_promedio :=
             if 0 < ex.stock + det.cantidad then
               (ex.stock * ex.costo_promedio + det.cantidad * det.costo_unitario.getD 0) /
                 (ex.stock + det.cantidad)
             else ex.costo_promedio },
         { material := det.material, almacen := alm, tipo := Tipo.ENTRADA,
           cantidad_entrada := det.cantidad, cantidad_salida := 0,
           costo_unitario := det.costo_unitario.getD 0,
           saldo_stock := ex.stock + det.cantidad,
           saldo_costo_promedio :=
             if 0 < ex.stock + det.cantidad then
               (ex.stock * ex.costo_promedio + det.cantidad * det.costo_unitario.getD 0) /
                 (ex.stock + det.cantidad)
             else ex.costo_promedio }) := by
  simp [aplicarDetalle]

/-- A SALIDA line fails exactly when it would drive the stock negative while
negatives are disallowed; otherwise it decreases the stock and leaves the
average cost unchanged. -/
lemma aplicarDetalle_salida (allowNeg : Bool) (alm : Nat) (ex : Existencia)
    (det : MovimientoDetalle) :
    aplicarDetalle allowNeg Tipo.SALIDA alm ex det =
      if ex.stock - det.cantidad < 0 ∧ allowNeg = false then
        Except.error "Stock insuficiente"
      else
        Except.ok
          ({ stock := ex.stock - det.cantidad, costo_promedio := ex.costo_promedio },
           { material := det.material, almacen := alm, tipo := Tipo.SALIDA,
             cantidad_entrada := 0, cantidad_salida := det.cantidad,
             costo_unitario := ex.costo_promedio,
             saldo_stock := ex.stock - det.cantidad,
             saldo_costo_promedio := ex.costo_promedio }) := by
  simp [aplicarDetalle]

/-- Applying a single-line unapplied movement, written out. -/
lemma aplicar_mov_single (allowNeg : Bool) (db : DB) (tipo : Tipo) (alm : Nat)
    (det : MovimientoDetalle) :
    aplicar_movimiento_promedio allowNeg db
        { tipo := tipo, almacen := alm, detalles := [det], aplicado := false } =
      match aplicarDetalle allowNeg tipo alm (db.existencias det.material alm) det with
      | Except.error e => Except.error e
      | Except.ok (ex, k) =>
          Except.ok
            ({ existencias := setExistencia db.existencias det.material alm ex,
               kardex := db.kardex ++ [k] },
             { tipo := tipo, almacen := alm, detalles := [det], aplicado := true }) := by
  cases h : aplicarDetalle allowNeg tipo alm (db.existencias det.material alm) det with
  | error e => simp [aplicar_movimiento_promedio, aplicarLineas, h]
  | ok p =>
      obtain ⟨ex, k⟩ := p
      simp [aplicar_movimiento_promedio, aplicarLineas, h]

/-- A successful line loop appends exactly one ledger row per line. -/
lemma aplicarLineas_kardex (allowNeg : Bool) (tipo : Tipo) (alm : Nat) :
    ∀ (dets : List MovimientoDetalle) (db db' : DB),
      aplicarLineas allowNeg tipo alm db dets = Except.ok db' →
      ∃ ks, db'.kardex = db.kardex ++ ks ∧ ks.length = dets.length := by
  intro dets
  induction dets with
  | nil =>
      intro db db' h
      rw [aplicarLineas] at h
      cases h
      exact ⟨[], by simp, rfl⟩
  | cons det rest ih =>
      intro db db' h
      rw [aplicarLineas] at h
      cases hd : aplicarDetalle allowNeg tipo alm (db.existencias det.material alm) det with
      | error e => rw [hd] at h; cases h
      | ok p =>
          obtain ⟨ex, k⟩ := p
          rw [hd] at h
          obtain ⟨ks, hk, hl⟩ := ih _ _ h
          refine ⟨k :: ks, ?_, by simp [hl]⟩
          simpa using hk

/-- The line loop of an ENTRADA movement never fails. -/
lemma aplicarLineas_entrada_ok (allowNeg : Bool) (alm : Nat) :
    ∀ (dets : List MovimientoDetalle) (db : DB),
      ∃ db', aplicarLineas allowNeg Tipo.ENTRADA alm db dets = Except.ok db' := by
  intro dets
  induction dets with
  | nil => intro db; exact ⟨db, rfl⟩
  | cons det rest ih =>
      intro db
      rw [aplicarLineas, aplicarDetalle_entrada]
      exact ih _

/-- Folding a list of explicit-cost receipts of one material into one warehouse:
the loop succeeds, the stock grows by the total received quantity, and
stock·average-cost grows by the total received value. -/
lemma aplicarLineas_recibos (allowNeg : Bool) (alm : Nat) :
    ∀ (l : List (ℚ × ℚ)) (db : DB), (∀ qc ∈ l, 0 < qc.1) →
      0 ≤ (db.existencias 0 alm).stock →
      ∃ db',
        aplicarLineas allowNeg Tipo.ENTRADA alm db (l.map reciboDetalle) = Except.ok db' ∧
        (db'.existencias 0 alm).stock =
          (db.existencias 0 alm).stock + (l.map Prod.fst).sum ∧
        (db'.existencias 0 alm).stock * (db'.existencias 0 alm).costo_promedio =
          (db.existencias 0 alm).stock * (db.existencias 0 alm).costo_promedio +
            (l.map fun qc => qc.1 * qc.2).sum := by
  intro l
  induction l with
  | nil =>
      intro db _ _
      exact ⟨db, rfl, by simp, by simp⟩
  | cons qc rest ih =>
      intro db hpos hst
      have hq : 0 < qc.1 := hpos qc (by simp)
      have hstpos : 0 < (db.existencias 0 alm).stock + qc.1 := by linarith
      rw [List.map_cons, aplicarLineas]
      have hdet : (reciboDetalle qc).material = 0 := rfl
      rw [hdet, aplicarDetalle_entrada]
      have hcant : (reciboDetalle qc).cantidad = qc.1 := rfl
      have hcost : (reciboDetalle qc).costo_unitario.getD 0 = qc.2 := rfl
      rw [hcant, hcost, if_pos hstpos]
      set st := (db.existencias 0 alm).stock with hstdef
      set cp := (db.existencias 0 alm).costo_promedio with hcpdef
      set ex2 : Existencia :=
        { stock := st + qc.1, costo_promedio := (st * cp + qc.1 * qc.2) / (st + qc.1) }
        with hex2
      set db2 : DB :=
        { existencias := setExistencia db.existencias 0 alm ex2,
          kardex := db.kardex ++
            [{ material := (reciboDetalle qc).material, almacen := alm,
               tipo := Tipo.ENTRADA, cantidad_entrada := qc.1, cantidad_salida := 0,
               costo_unitario := qc.2, saldo_stock := st + qc.1,
               saldo_costo_promedio := (st * cp + qc.1 * qc.2) / (st + qc.1) }] }
        with hdb2
      have hdb2ex : db2.existencias 0 alm = ex2 := by
        rw [hdb2]; exact setExistencia_same _ _ _ _
      obtain ⟨db', h1, h2, h3⟩ :=
        ih db2 (fun x hx => hpos x (by simp [hx])) (by rw [hdb2ex]; simp [hex2]; linarith)
      refine ⟨db', h1, ?_, ?_⟩
      · rw [h2, hdb2ex]
        simp [hex2]
        ring
      · rw [h3, hdb2ex]
        have hmul : ex2.stock * ex2.costo_promedio = st * cp + qc.1 * qc.2 := by
          rw [hex2]
          field_simp
        rw [hmul]
        simp
        ring

/-- A receipt-like line (ENTRADA, or AJUSTE with positive quantity) never fails
and follows the weighted-average update, with the effective incoming cost. -/
lemma aplicarDetalle_receipt (allowNeg : Bool) (tipo : Tipo) (alm : Nat)
    (ex : Existencia) (det : MovimientoDetalle)
    (hrec : tipo = Tipo.ENTRADA ∨ (tipo = Tipo.AJUSTE ∧ 0 < det.cantidad)) :
    aplicarDetalle allowNeg tipo alm ex det =
      Except.ok
        ({ stock := ex.stock + det.cantidad,
           costo_promedio :=
             if 0 < ex.stock + det.cantidad then
               (ex.stock * ex.costo_promedio + det.cantidad * costoEfectivo tipo ex det) /
                 (ex.stock + det.cantidad)
             else ex.costo_promedio },
         { material := det.material, almacen := alm, tipo := tipo,
           cantidad_entrada := det.cantidad, cantidad_salida := 0,
           costo_unitario := costoEfectivo tipo ex det,
           saldo_stock := ex.stock + det.cantidad,
           saldo_costo_promedio :=
             if 0 < ex.stock + det.cantidad then
               (ex.stock * ex.costo_promedio + det.cantidad * costoEfectivo tipo ex det) /
                 (ex.stock + det.cantidad)
             else ex.costo_promedio }) := by
  rcases hrec with h | ⟨h, hpos⟩
  · subst h
    rw [aplicarDetalle_entrada]
    simp [costoEfectivo]
  · subst h
    by_cases hf : falsy det.costo_unitario = true
    · simp [aplicarDetalle, costoEfectivo, hpos, hf]
    · simp [aplicarDetalle, costoEfectivo, hpos, hf]

/-- An AJUSTE line with non-positive quantity takes the issue branch. -/
lemma aplicarDetalle_ajuste_npos (allowNeg : Bool) (alm : Nat) (ex : Existencia)
    (det : MovimientoDetalle) (hnpos : ¬ 0 < det.cantidad) :
    aplicarDetalle allowNeg Tipo.AJUSTE alm ex det =
      if ex.stock - det.cantidad < 0 ∧ allowNeg = false then
        Except.error "Stock insuficiente"
      else
        Except.ok
          ({ stock := ex.stock - det.cantidad, costo_promedio := ex.costo_promedio },
           { material := det.material, almacen := alm, tipo := Tipo.AJUSTE,
             cantidad_entrada := 0, cantidad_salida := det.cantidad,
             costo_unitario := ex.costo_promedio,
             saldo_stock := ex.stock - det.cantidad,
             saldo_costo_promedio := ex.costo_promedio }) := by
  simp [aplicarDetalle, hnpos]

/-! ### Claims -/

/-- C1: every receipt-like line (ENTRADA, or AJUSTE with positive quantity)
updates the stock row by q' = q + in_qty and c' = (q·c + in_qty·in_cost)/q'
when q' > 0, keeping c otherwise; and folding any non-empty sequence of
receipts with positive quantities q_i and explicit costs c_i into initially
empty stock yields average cost Σ(q_i·c_i)/Σ(q_i). -/
theorem C1_receipt_weighted_average (allowNeg : Bool) (tipo : Tipo) (almacen : Nat)
    (ex : Existencia) (det : MovimientoDetalle) (l : List (ℚ × ℚ))
    (hrec : tipo = Tipo.ENTRADA ∨ (tipo = Tipo.AJUSTE ∧ 0 < det.cantidad))
    (hpos : ∀ qc ∈ l, 0 < qc.1) (hne : l ≠ []) :
    (∃ ex' k, aplicarDetalle allowNeg tipo almacen ex det = Except.ok (ex', k) ∧
        ex'.stock = ex.stock + det.cantidad ∧
        ex'.costo_promedio =
          (if 0 < ex.stock + det.cantidad then
            (ex.stock * ex.costo_promedio + det.cantidad * costoEfectivo tipo ex det) /
              (ex.stock + det.cantidad)
          else ex.costo_promedio)) ∧
    (∃ db',
        aplicarLineas allowNeg Tipo.ENTRADA almacen dbVacia (l.map reciboDetalle) =
          Except.ok db' ∧
        (db'.existencias 0 almacen).costo_promedio =
          (l.map fun qc => qc.1 * qc.2).sum / (l.map Prod.fst).sum) := by
  constructor
  · exact ⟨_, _, aplicarDetalle_receipt allowNeg tipo almacen ex det hrec, rfl, rfl⟩
  · obtain ⟨db', h1, h2, h3⟩ :=
      aplicarLineas_recibos allowNeg almacen l dbVacia hpos (by simp [dbVacia])
    have hQ : 0 < (l.map Prod.fst).sum := by
      cases l with
      | nil => exact absurd rfl hne
      | cons qc rest =>
          have h0 : 0 < qc.1 := hpos qc (by simp)
          have hrest : 0 ≤ (rest.map Prod.fst).sum := by
            refine List.sum_nonneg ?_
            intro x hx
            obtain ⟨y, hy, rfl⟩ := List.mem_map.mp hx
            exact le_of_lt (hpos y (by simp [hy]))
          simp only [List.map_cons, List.sum_cons]
          linarith
    refine ⟨db', h1, ?_⟩
    have hstock : (db'.existencias 0 almacen).stock = (l.map Prod.fst).sum := by
      rw [h2]; simp [dbVacia]
    have h3' : (db'.existencias 0 almacen).stock *
        (db'.existencias 0 almacen).costo_promedio =
        (l.map fun qc => qc.1 * qc.2).sum := by
      rw [h3]; simp [dbVacia]
    rw [eq_div_iff (ne_of_gt hQ), ← hstock, mul_comm, h3']

/-- C1 witness: a receipt of 2 units at cost 3 onto (1 unit, cost 6), and the
receipt sequence [(100, 10), (50, 16)] into empty stock. -/
theorem C1_receipt_weighted_average_witness :
    (∃ ex' k, aplicarDetalle false Tipo.ENTRADA 0
        { stock := 1, costo_promedio := 6 }
        { material := 0, cantidad := 2, costo_unitario := some 3 } =
          Except.ok (ex', k) ∧
        ex'.stock = (1 : ℚ) + 2 ∧
        ex'.costo_promedio =
          (if (0 : ℚ) < 1 + 2 then
            ((1 : ℚ) * 6 + 2 * costoEfectivo Tipo.ENTRADA
              { stock := 1, costo_promedio := 6 }
              { material := 0, cantidad := 2, costo_unitario := some 3 }) / (1 + 2)
          else 6)) ∧
    (∃ db',
        aplicarLineas false Tipo.ENTRADA 0 dbVacia
          ([((100 : ℚ), (10 : ℚ)), (50, 16)].map reciboDetalle) = Except.ok db' ∧
        (db'.existencias 0 0).costo_promedio =
          ([((100 : ℚ), (10 : ℚ)), (50, 16)].map fun qc => qc.1 * qc.2).sum /
            ([((100 : ℚ), (10 : ℚ)), (50, 16)].map Prod.fst).sum) := by
  have h := C1_receipt_weighted_average false Tipo.ENTRADA 0
    { stock := 1, costo_promedio := 6 }
    { material := 0, cantidad := 2, costo_unitario := some 3 }
    [((100 : ℚ), (10 : ℚ)), (50, 16)]
    (Or.inl rfl)
    (by
      intro qc hqc
      simp only [List.mem_cons, List.not_mem_nil, or_false] at hqc
      rcases hqc with h | h <;> subst h <;> norm_num)
    (by simp)
  exact h

/-- C2 counterexample: an ENTRADA (RECEIPT) line with absent unit cost onto a
row with stock 1 and average cost 5. The claim predicts the incoming cost
defaults to the current average cost 5, giving a new average of 5; the code
uses 0, giving ledger unit cost 0 and new average (1·5 + 1·0)/2 = 5/2. -/
theorem C2_counterexample :
    aplicarDetalle false Tipo.ENTRADA 0 { stock := 1, costo_promedio := 5 }
        { material := 0, cantidad := 1, costo_unitario := none } =
      Except.ok
        ({ stock := 2, costo_promedio := 5 / 2 },
         { material := 0, almacen := 0, tipo := Tipo.ENTRADA, cantidad_entrada := 1,
           cantidad_salida := 0, costo_unitario := 0, saldo_stock := 2,
           saldo_costo_promedio := 5 / 2 }) ∧
    ((5 : ℚ) / 2 ≠ 5 ∧ (0 : ℚ) ≠ 5) := by
  refine ⟨?_, by norm_num, by norm_num⟩
  rw [aplicarDetalle_entrada]
  norm_num

/-- C2 amended: only an AJUSTE line with positive quantity defaults an absent
unit cost to the current average cost; an ENTRADA line with absent unit cost
is costed at 0. -/
theorem C2_default_cost (allowNeg : Bool) (almacen : Nat) (ex : Existencia)
    (det : MovimientoDetalle) (hnone : det.costo_unitario = none) :
    (0 < det.cantidad →
      ∃ ex' k, aplicarDetalle allowNeg Tipo.AJUSTE almacen ex det = Except.ok (ex', k) ∧
        k.costo_unitario = ex.costo_promedio ∧
        ex'.costo_promedio =
          (if 0 < ex.stock + det.cantidad then
            (ex.stock * ex.costo_promedio + det.cantidad * ex.costo_promedio) /
              (ex.stock + det.cantidad)
          else ex.costo_promedio)) ∧
    (∃ ex' k, aplicarDetalle allowNeg Tipo.ENTRADA almacen ex det = Except.ok (ex', k) ∧
        k.costo_unitario = 0 ∧
        ex'.costo_promedio =
          (if 0 < ex.stock + det.cantidad then
            (ex.stock * ex.costo_promedio + det.cantidad * 0) / (ex.stock + det.cantidad)
          else ex.costo_promedio)) := by
  constructor
  · intro hpos
    have hc : costoEfectivo Tipo.AJUSTE ex det = ex.costo_promedio := by
      simp [costoEfectivo, falsy, hnone, hpos]
    refine ⟨_, _, aplicarDetalle_receipt allowNeg Tipo.AJUSTE almacen ex det
      (Or.inr ⟨rfl, hpos⟩), ?_, ?_⟩
    · simpa using hc
    · simp [hc]
  · have hc : costoEfectivo Tipo.ENTRADA ex det = 0 := by
      simp [costoEfectivo, hnone]
    refine ⟨_, _, aplicarDetalle_receipt allowNeg Tipo.ENTRADA almacen ex det
      (Or.inl rfl), ?_, ?_⟩
    · simpa using hc
    · simp [hc]

/-- C2 witness: the amended claim at stock 4, average cost 7, quantity 3. -/
theorem C2_default_cost_witness :
    ((0 : ℚ) < 3 →
      ∃ ex' k, aplicarDetalle false Tipo.AJUSTE 1 { stock := 4, costo_promedio := 7 }
          { material := 2, cantidad := 3, costo_unitario := none } = Except.ok (ex', k) ∧
        k.costo_unitario = (7 : ℚ) ∧
        ex'.costo_promedio =
          (if (0 : ℚ) < 4 + 3 then ((4 : ℚ) * 7 + 3 * 7) / (4 + 3) else 7)) ∧
    (∃ ex' k, aplicarDetalle false Tipo.ENTRADA 1 { stock := 4, costo_promedio := 7 }
        { material := 2, cantidad := 3, costo_unitario := none } = Except.ok (ex', k) ∧
      k.costo_unitario = 0 ∧
      ex'.costo_promedio =
        (if (0 : ℚ) < 4 + 3 then ((4 : ℚ) * 7 + 3 * 0) / (4 + 3) else 7)) :=
  C2_default_cost false 1 { stock := 4, costo_promedio := 7 }
    { material := 2, cantidad := 3, costo_unitario := none } rfl

/-- C4: applying an already-applied movement or transfer is a successful no-op
(the state and ledger are returned unchanged), so the ledger rows of a
movement are written at most once: re-applying the result of a successful
application changes nothing. -/
theorem C4_idempotent (allowNeg : Bool) (db db1 : DB) (mov mov1 : Movimiento)
    (t : Traspaso)
    (h : aplicar_movimiento_promedio allowNeg db mov = Except.ok (db1, mov1))
    (ht : t.aplicado = true) :
    aplicar_movimiento_promedio allowNeg db1 mov1 = Except.ok (db1, mov1) ∧
    aplicar_traspaso allowNeg db t = Except.ok (db, t) := by
  constructor
  · have hap : mov1.aplicado = true := by
      rw [aplicar_movimiento_promedio] at h
      by_cases hm : mov.aplicado
      · rw [if_pos hm] at h
        cases h
        exact hm
      · rw [if_neg hm] at h
        cases hl : aplicarLineas allowNeg mov.tipo mov.almacen db mov.detalles with
        | error e => rw [hl] at h; cases h
        | ok db2 => rw [hl] at h; cases h; rfl
    rw [aplicar_movimiento_promedio, if_pos hap]
  · rw [aplicar_traspaso, if_pos ht]

/-- C4 witness: a one-line receipt applied to the empty database, then
re-applied; an applied transfer. -/
theorem C4_idempotent_witness :
    ∃ db1 mov1,
      aplicar_movimiento_promedio false dbVacia
        { tipo := Tipo.ENTRADA, almacen := 0,
          detalles := [{ material := 0, cantidad := 1, costo_unitario := some 2 }],
          aplicado := false } = Except.ok (db1, mov1) ∧
      aplicar_movimiento_promedio false db1 mov1 = Except.ok (db1, mov1) ∧
      aplicar_traspaso false dbVacia
        { almacen_origen := 0, almacen_destino := 1, detalles := [], aplicado := true } =
        Except.ok (dbVacia,
          { almacen_origen := 0, almacen_destino := 1, detalles := [], aplicado := true }) := by
  have h0 : aplicar_movimiento_promedio false dbVacia
      { tipo := Tipo.ENTRADA, almacen := 0,
        detalles := [{ material := 0, cantidad := 1, costo_unitario := some 2 }],
        aplicado := false } =
      Except.ok
        ({ existencias := setExistencia dbVacia.existencias 0 0
             { stock := 0 + 1, costo_promedio := (0 * 0 + 1 * 2) / (0 + 1) },
           kardex := dbVacia.kardex ++
             [{ material := 0, almacen := 0, tipo := Tipo.ENTRADA, cantidad_entrada := 1,
                cantidad_salida := 0, costo_unitario := 2, saldo_stock := 0 + 1,
                saldo_costo_promedio := (0 * 0 + 1 * 2) / (0 + 1) }] },
         { tipo := Tipo.ENTRADA, almacen := 0,
           detalles := [{ material := 0, cantidad := 1, costo_unitario := some 2 }],
           aplicado := true }) := by
    rw [aplicar_mov_single, aplicarDetalle_entrada]
    norm_num [dbVacia]
  refine ⟨_, _, h0, ?_⟩
  have h := C4_idempotent false dbVacia _ _ _
    { almacen_origen := 0, almacen_destino := 1, detalles := [], aplicado := true } h0 rfl
  exact h

/-- C5: an issue-like line (SALIDA, or AJUSTE with non-positive quantity) that
succeeds leaves the average cost unchanged, sets the stock to q − out_qty, and
writes a ledger row with qty_in = 0, unit cost c and balance cost c. -/
theorem C5_issue_frame (allowNeg : Bool) (tipo : Tipo) (almacen : Nat)
    (ex ex' : Existencia) (det : MovimientoDetalle) (k : Kardex)
    (hiss : tipo = Tipo.SALIDA ∨ (tipo = Tipo.AJUSTE ∧ ¬ 0 < det.cantidad))
    (h : aplicarDetalle allowNeg tipo almacen ex det = Except.ok (ex', k)) :
    ex'.costo_promedio = ex.costo_promedio ∧
    ex'.stock = ex.stock - det.cantidad ∧
    k.cantidad_entrada = 0 ∧
    k.cantidad_salida = det.cantidad ∧
    k.costo_unitario = ex.costo_promedio ∧
    k.saldo_costo_promedio = ex.costo_promedio := by
  rcases hiss with h1 | ⟨h1, hnpos⟩
  · subst h1
    rw [aplicarDetalle_salida] at h
    by_cases hc : ex.stock - det.cantidad < 0 ∧ allowNeg = false
    · rw [if_pos hc] at h; cases h
    · rw [if_neg hc] at h
      cases h
      exact ⟨rfl, rfl, rfl, rfl, rfl, rfl⟩
  · subst h1
    rw [aplicarDetalle_ajuste_npos allowNeg almacen ex det hnpos] at h
    by_cases hc : ex.stock - det.cantidad < 0 ∧ allowNeg = false
    · rw [if_pos hc] at h; cases h
    · rw [if_neg hc] at h
      cases h
      exact ⟨rfl, rfl, rfl, rfl, rfl, rfl⟩

/-- C5 witness: issuing 2 from a row with stock 3 and average cost 4. -/
theorem C5_issue_frame_witness :
    ∃ ex' k,
      aplicarDetalle false Tipo.SALIDA 0 { stock := 3, costo_promedio := 4 }
        { material := 0, cantidad := 2, costo_unitario := none } = Except.ok (ex', k) ∧
      ex'.costo_promedio = (4 : ℚ) ∧
      ex'.stock = (3 : ℚ) - 2 ∧
      k.cantidad_entrada = 0 ∧
      k.cantidad_salida = (2 : ℚ) ∧
      k.costo_unitario = (4 : ℚ) ∧
      k.saldo_costo_promedio = (4 : ℚ) := by
  have hap : aplicarDetalle false Tipo.SALIDA 0 { stock := 3, costo_promedio := 4 }
      { material := 0, cantidad := 2, costo_unitario := none } =
      Except.ok
        ({ stock := 3 - 2, costo_promedio := 4 },
         { material := 0, almacen := 0, tipo := Tipo.SALIDA, cantidad_entrada := 0,
           cantidad_salida := 2, costo_unitario := 4, saldo_stock := 3 - 2,
           saldo_costo_promedio := 4 }) := by
    rw [aplicarDetalle_salida]
    norm_num
  obtain ⟨h1, h2, h3, h4, h5, h6⟩ :=
    C5_issue_frame false Tipo.SALIDA 0 { stock := 3, costo_promedio := 4 } _
      { material := 0, cantidad := 2, costo_unitario := none } _ (Or.inl rfl) hap
  exact ⟨_, _, hap, h1, h2, h3, h4, h5, h6⟩

/-- C3: a SALIDA movement whose line would drive the stock negative fails when
negatives are disallowed — and the failing result carries no state, so no
stock or ledger mutation of the movement is retained — while with negatives
allowed the same movement succeeds and leaves a negative balance. -/
theorem C3_negative_stock_guard (db : DB) (alm : Nat) (det : MovimientoDetalle)
    (hneg : (db.existencias det.material alm).stock - det.cantidad < 0) :
    (∃ e, aplicar_movimiento_promedio false db
        { tipo := Tipo.SALIDA, almacen := alm, detalles := [det], aplicado := false } =
        Except.error e) ∧
    (∃ db', aplicar_movimiento_promedio true db
        { tipo := Tipo.SALIDA, almacen := alm, detalles := [det], aplicado := false } =
        Except.ok (db',
          { tipo := Tipo.SALIDA, almacen := alm, detalles := [det], aplicado := true }) ∧
      (db'.existencias det.material alm).stock =
        (db.existencias det.material alm).stock - det.cantidad ∧
      (db'.existencias det.material alm).stock < 0) := by
  constructor
  · refine ⟨"Stock insuficiente", ?_⟩
    rw [aplicar_mov_single, aplicarDetalle_salida, if_pos ⟨hneg, rfl⟩]
  · rw [aplicar_mov_single, aplicarDetalle_salida, if_neg (by simp)]
    refine ⟨_, rfl, ?_, ?_⟩
    · simp [setExistencia_same]
    · simpa [setExistencia_same] using hneg

/-- C3 witness: issuing 5 from an empty row. -/
theorem C3_negative_stock_guard_witness :
    (∃ e, aplicar_movimiento_promedio false dbVacia
        { tipo := Tipo.SALIDA, almacen := 0,
          detalles := [{ material := 0, cantidad := 5, costo_unitario := none }],
          aplicado := false } = Except.error e) ∧
    (∃ db', aplicar_movimiento_promedio true dbVacia
        { tipo := Tipo.SALIDA, almacen := 0,
          detalles := [{ material := 0, cantidad := 5, costo_unitario := none }],
          aplicado := false } =
        Except.ok (db',
          { tipo := Tipo.SALIDA, almacen := 0,
            detalles := [{ material := 0, cantidad := 5, costo_unitario := none }],
            aplicado := true }) ∧
      (db'.existencias 0 0).stock = (dbVacia.existencias 0 0).stock - 5 ∧
      (db'.existencias 0 0).stock < 0) :=
  C3_negative_stock_guard dbVacia 0
    { material := 0, cantidad := 5, costo_unitario := none } (by norm_num [dbVacia])

/-- C6 counterexample: a movement with a non-positive (zero) line quantity that
is also the first receipt of its (material, warehouse) pair with no unit cost
— both conditions the claim says raise ValidationError — is applied by the
code without any error. -/
theorem C6_counterexample :
    ∃ p, aplicar_movimiento_promedio false dbVacia
        { tipo := Tipo.ENTRADA, almacen := 0,
          detalles := [{ material := 0, cantidad := 0, costo_unitario := none }],
          aplicado := false } = Except.ok p := by
  rw [aplicar_mov_single, aplicarDetalle_entrada]
  exact ⟨_, rfl⟩

/-- C6 amended: the engine performs no input validation — an ENTRADA movement
always succeeds, whatever its line quantities and whether or not unit costs
are present (a missing cost on a first receipt is simply treated as cost 0). -/
theorem C6_no_validation (allowNeg : Bool) (db : DB) (mov : Movimiento)
    (htipo : mov.tipo = Tipo.ENTRADA) :
    ∃ p, aplicar_movimiento_promedio allowNeg db mov = Except.ok p := by
  by_cases hap : mov.aplicado
  · rw [aplicar_movimiento_promedio, if_pos hap]
    exact ⟨_, rfl⟩
  · rw [aplicar_movimiento_promedio, if_neg hap, htipo]
    obtain ⟨db', h⟩ := aplicarLineas_entrada_ok allowNeg mov.almacen mov.detalles db
    rw [h]
    exact ⟨_, rfl⟩

/-- C6 witness: an ENTRADA movement with a negative-quantity, costless line. -/
theorem C6_no_validation_witness :
    ∃ p, aplicar_movimiento_promedio false dbVacia
        { tipo := Tipo.ENTRADA, almacen := 3,
          detalles := [{ material := 1, cantidad := -2, costo_unitario := none }],
          aplicado := false } = Except.ok p :=
  C6_no_validation false dbVacia
    { tipo := Tipo.ENTRADA, almacen := 3,
      detalles := [{ material := 1, cantidad := -2, costo_unitario := none }],
      aplicado := false } rfl

/-- C9: every successfully applied line writes a ledger row whose balance
quantity and balance average cost equal the updated stock row; and a
successfully applied (previously unapplied) movement appends exactly one
ledger row per line. -/
theorem C9_ledger_completeness (allowNeg : Bool) (tipo : Tipo) (alm : Nat)
    (ex ex' : Existencia) (det : MovimientoDetalle) (k : Kardex)
    (db db' : DB) (mov mov' : Movimiento)
    (hk : aplicarDetalle allowNeg tipo alm ex det = Except.ok (ex', k))
    (hnap : mov.aplicado = false)
    (hm : aplicar_movimiento_promedio allowNeg db mov = Except.ok (db', mov')) :
    (k.saldo_stock = ex'.stock ∧ k.saldo_costo_promedio = ex'.costo_promedio) ∧
    (∃ ks, db'.kardex = db.kardex ++ ks ∧ ks.length = mov.detalles.length) := by
  constructor
  · cases tipo with
    | ENTRADA =>
        rw [aplicarDetalle_entrada] at hk
        cases hk
        exact ⟨rfl, rfl⟩
    | SALIDA =>
        rw [aplicarDetalle_salida] at hk
        by_cases h4 : ex.stock - det.cantidad < 0 ∧ allowNeg = false
        · rw [if_pos h4] at hk; cases hk
        · rw [if_neg h4] at hk; cases hk; exact ⟨rfl, rfl⟩
    | AJUSTE =>
        by_cases hpos : 0 < det.cantidad
        · rw [aplicarDetalle_receipt allowNeg Tipo.AJUSTE alm ex det
            (Or.inr ⟨rfl, hpos⟩)] at hk
          cases hk
          exact ⟨rfl, rfl⟩
        · rw [aplicarDetalle_ajuste_npos allowNeg alm ex det hpos] at hk
          by_cases h4 : ex.stock - det.cantidad < 0 ∧ allowNeg = false
          · rw [if_pos h4] at hk; cases hk
          · rw [if_neg h4] at hk; cases hk; exact ⟨rfl, rfl⟩
  · rw [aplicar_movimiento_promedio, if_neg (by simp [hnap])] at hm
    cases hl : aplicarLineas allowNeg mov.tipo mov.almacen db mov.detalles with
    | error e => rw [hl] at hm; cases hm
    | ok db2 =>
        rw [hl] at hm
        cases hm
        exact aplicarLineas_kardex allowNeg mov.tipo mov.almacen mov.detalles db _ hl

/-- C9 witness: a single receipt line and a two-line receipt movement. -/
theorem C9_ledger_completeness_witness :
    ∃ ex' k,
      aplicarDetalle false Tipo.ENTRADA 0 { stock := 0, costo_promedio := 0 }
          { material := 0, cantidad := 1, costo_unitario := some 2 } =
        Except.ok (ex', k) ∧
      (k.saldo_stock = ex'.stock ∧ k.saldo_costo_promedio = ex'.costo_promedio) ∧
    (∃ ks db' mov',
      aplicar_movimiento_promedio false dbVacia
        { tipo := Tipo.ENTRADA, almacen := 0,
          detalles := [{ material := 0, cantidad := 1, costo_unitario := some 2 },
                       { material := 1, cantidad := 4, costo_unitario := some 3 }],
          aplicado := false } = Except.ok (db', mov') ∧
      db'.kardex = dbVacia.kardex ++ ks ∧ ks.length = 2) := by
  have hk : aplicarDetalle false Tipo.ENTRADA 0
      { stock := 0, costo_promedio := 0 }
      { material := 0, cantidad := 1, costo_unitario := some 2 } =
      Except.ok
        ({ stock := 0 + 1, costo_promedio := (0 * 0 + 1 * 2) / (0 + 1) },
         { material := 0, almacen := 0, tipo := Tipo.ENTRADA, cantidad_entrada := 1,
           cantidad_salida := 0, costo_unitario := 2, saldo_stock := 0 + 1,
           saldo_costo_promedio := (0 * 0 + 1 * 2) / (0 + 1) }) := by
    rw [aplicarDetalle_entrada]
    norm_num
  obtain ⟨p, hm⟩ := aplicarLineas_entrada_ok false 0
    [{ material := 0, cantidad := 1, costo_unitario := some 2 },
     { material := 1, cantidad := 4, costo_unitario := some 3 }] dbVacia
  have hm' : aplicar_movimiento_promedio false dbVacia
      { tipo := Tipo.ENTRADA, almacen := 0,
        detalles := [{ material := 0, cantidad := 1, costo_unitario := some 2 },
                     { material := 1, cantidad := 4, costo_unitario := some 3 }],
        aplicado := false } =
      Except.ok (p,
        { tipo := Tipo.ENTRADA, almacen := 0,
          detalles := [{ material := 0, cantidad := 1, costo_unitario := some 2 },
                       { material := 1, cantidad := 4, costo_unitario := some 3 }],
          aplicado := true }) := by
    rw [aplicar_movimiento_promedio, if_neg (by simp), hm]
  obtain ⟨hfields, ks, hks, hlen⟩ :=
    C9_ledger_completeness false Tipo.ENTRADA 0
      { stock := 0, costo_promedio := 0 } _
      { material := 0, cantidad := 1, costo_unitario := some 2 } _
      dbVacia p _ _ hk rfl hm'
  exact ⟨_, _, hk, hfields, ks, p, _, hm', hks, hlen⟩

/-- The database produced by a successful single-line transfer: the source row
loses the quantity (average cost unchanged), a SALIDA ledger row is written,
then the destination receives the quantity at the override cost when present,
else at the source row's post-issue average cost, and an ENTRADA ledger row
is written. -/
def traspasoSingleResultDB (db : DB) (ao ad : Nat) (d : TraspasoDetalle) : DB :=
  let ex0 := db.existencias d.material ao
  let ex1 : Existencia :=
    { stock := ex0.stock - d.cantidad, costo_promedio := ex0.costo_promedio }
  let k1 : Kardex :=
    { material := d.material, almacen := ao, tipo := Tipo.SALIDA,
      cantidad_entrada := 0, cantidad_salida := d.cantidad,
      costo_unitario := ex0.costo_promedio, saldo_stock := ex0.stock - d.cantidad,
      saldo_costo_promedio := ex0.costo_promedio }
  let db1 : DB :=
    { existencias := setExistencia db.existencias d.material ao ex1,
      kardex := db.kardex ++ [k1] }
  let costo :=
    d.costo_unitario_destino.getD ((db1.existencias d.material ao).costo_promedio)
  let exd := db1.existencias d.material ad
  let nst := exd.stock + d.cantidad
  let ncp :=
    if 0 < nst then (exd.stock * exd.costo_promedio + d.cantidad * costo) / nst
    else exd.costo_promedio
  let ex2 : Existencia := { stock := nst, costo_promedio := ncp }
  let k2 : Kardex :=
    { material := d.material, almacen := ad, tipo := Tipo.ENTRADA,
      cantidad_entrada := d.cantidad, cantidad_salida := 0, costo_unitario := costo,
      saldo_stock := nst, saldo_costo_promedio := ncp }
  { existencias := setExistencia db1.existencias d.material ad ex2,
    kardex := db1.kardex ++ [k2] }

/-- A single-line unapplied transfer whose issue leg does not hit the
negative-stock guard succeeds with the explicit result above. -/
lemma aplicar_traspaso_single (allowNeg : Bool) (db : DB) (ao ad : Nat)
    (d : TraspasoDetalle)
    (hok : ¬((db.existencias d.material ao).stock - d.cantidad < 0 ∧ allowNeg = false)) :
    aplicar_traspaso allowNeg db
        { almacen_origen := ao, almacen_destino := ad, detalles := [d],
          aplicado := false } =
      Except.ok (traspasoSingleResultDB db ao ad d,
        { almacen_origen := ao, almacen_destino := ad, detalles := [d],
          aplicado := true }) := by
  have hok' : ¬((db.existencias (traspasoDetalleSalida d).material ao).stock -
      (traspasoDetalleSalida d).cantidad < 0 ∧ allowNeg = false) := hok
  simp only [aplicar_traspaso, List.map_cons, List.map_nil, Bool.false_eq_true,
    if_false, aplicar_mov_single, aplicarDetalle_salida, if_neg hok',
    aplicarDetalle_entrada, traspasoSingleResultDB]
  rfl

/-- A single-line unapplied transfer whose issue leg hits the negative-stock
guard fails, returning no state. -/
lemma aplicar_traspaso_single_error (allowNeg : Bool) (db : DB) (ao ad : Nat)
    (d : TraspasoDetalle)
    (hbad : (db.existencias d.material ao).stock - d.cantidad < 0 ∧ allowNeg = false) :
    aplicar_traspaso allowNeg db
        { almacen_origen := ao, almacen_destino := ad, detalles := [d],
          aplicado := false } =
      Except.error "Stock insuficiente" := by
  have hbad' : (db.existencias (traspasoDetalleSalida d).material ao).stock -
      (traspasoDetalleSalida d).cantidad < 0 ∧ allowNeg = false := hbad
  simp only [aplicar_traspaso, List.map_cons, List.map_nil, Bool.false_eq_true,
    if_false, aplicar_mov_single, aplicarDetalle_salida, if_pos hbad']

/-- The source row after a successful single-line transfer between distinct
warehouses: quantity decreased, average cost unchanged. -/
lemma traspasoSingleResultDB_origen (db : DB) (ao ad : Nat) (d : TraspasoDetalle)
    (hneq : ao ≠ ad) :
    (traspasoSingleResultDB db ao ad d).existencias d.material ao =
      { stock := (db.existencias d.material ao).stock - d.cantidad,
        costo_promedio := (db.existencias d.material ao).costo_promedio } := by
  simp [traspasoSingleResultDB, setExistencia, hneq]

/-- The destination row after a successful single-line transfer between
distinct warehouses. -/
lemma traspasoSingleResultDB_destino (db : DB) (ao ad : Nat) (d : TraspasoDetalle)
    (hneq : ao ≠ ad) :
    (traspasoSingleResultDB db ao ad d).existencias d.material ad =
      { stock := (db.existencias d.material ad).stock + d.cantidad,
        costo_promedio :=
          if 0 < (db.existencias d.material ad).stock + d.cantidad then
            ((db.existencias d.material ad).stock *
                (db.existencias d.material ad).costo_promedio +
              d.cantidad * d.costo_unitario_destino.getD
                ((db.existencias d.material ao).costo_promedio)) /
              ((db.existencias d.material ad).stock + d.cantidad)
          else (db.existencias d.material ad).costo_promedio } := by
  have hneq' : ad ≠ ao := Ne.symm hneq
  simp [traspasoSingleResultDB, setExistencia, hneq, hneq']

/-- The two ledger rows appended by a successful single-line transfer between
distinct warehouses: the SALIDA row at the source (costed at the source
average) and the ENTRADA row at the destination (costed at the override when
present, else at the source average). -/
lemma traspasoSingleResultDB_kardex (db : DB) (ao ad : Nat) (d : TraspasoDetalle)
    (hneq : ao ≠ ad) :
    (traspasoSingleResultDB db ao ad d).kardex =
      db.kardex ++
        [{ material := d.material, almacen := ao, tipo := Tipo.SALIDA,
           cantidad_entrada := 0, cantidad_salida := d.cantidad,
           costo_unitario := (db.existencias d.material ao).costo_promedio,
           saldo_stock := (db.existencias d.material ao).stock - d.cantidad,
           saldo_costo_promedio := (db.existencias d.material ao).costo_promedio },
         { material := d.material, almacen := ad, tipo := Tipo.ENTRADA,
           cantidad_entrada := d.cantidad, cantidad_salida := 0,
           costo_unitario := d.costo_unitario_destino.getD
             ((db.existencias d.material ao).costo_promedio),
           saldo_stock := (db.existencias d.material ad).stock + d.cantidad,
           saldo_costo_promedio :=
             if 0 < (db.existencias d.material ad).stock + d.cantidad then
               ((db.existencias d.material ad).stock *
                   (db.existencias d.material ad).costo_promedio +
                 d.cantidad * d.costo_unitario_destino.getD
                   ((db.existencias d.material ao).costo_promedio)) /
                 ((db.existencias d.material ad).stock + d.cantidad)
             else (db.existencias d.material ad).costo_promedio }] := by
  have hneq' : ad ≠ ao := Ne.symm hneq
  simp [traspasoSingleResultDB, setExistencia, hneq, hneq']

/-- C7: a successful single-line transfer of quantity X between distinct
warehouses decreases the source stock by exactly X, increases the destination
stock by exactly X, and conserves the total quantity over both warehouses. -/
theorem C7_transfer_conservation (allowNeg : Bool) (db db' : DB) (ao ad : Nat)
    (d : TraspasoDetalle) (t' : Traspaso) (hneq : ao ≠ ad)
    (h : aplicar_traspaso allowNeg db
        { almacen_origen := ao, almacen_destino := ad, detalles := [d],
          aplicado := false } = Except.ok (db', t')) :
    (db'.existencias d.material ao).stock =
      (db.existencias d.material ao).stock - d.cantidad ∧
    (db'.existencias d.material ad).stock =
      (db.existencias d.material ad).stock + d.cantidad ∧
    (db'.existencias d.material ao).stock + (db'.existencias d.material ad).stock =
      (db.existencias d.material ao).stock + (db.existencias d.material ad).stock := by
  by_cases hok : ((db.existencias d.material ao).stock - d.cantidad < 0 ∧
      allowNeg = false)
  · rw [aplicar_traspaso_single_error allowNeg db ao ad d hok] at h
    cases h
  · rw [aplicar_traspaso_single allowNeg db ao ad d hok] at h
    injection h with h1
    have hdb : db' = traspasoSingleResultDB db ao ad d := (congrArg Prod.fst h1).symm
    subst hdb
    refine ⟨?_, ?_, ?_⟩
    · rw [traspasoSingleResultDB_origen db ao ad d hneq]
    · rw [traspasoSingleResultDB_destino db ao ad d hneq]
    · rw [traspasoSingleResultDB_origen db ao ad d hneq,
        traspasoSingleResultDB_destino db ao ad d hneq]
      show (db.existencias d.material ao).stock - d.cantidad +
        ((db.existencias d.material ad).stock + d.cantidad) = _
      ring

/-- C7 witness: transferring 5 units from warehouse 0 to warehouse 1 starting
from the empty database with negative stock allowed. -/
theorem C7_transfer_conservation_witness :
    ∃ db' t',
      aplicar_traspaso true dbVacia
        { almacen_origen := 0, almacen_destino := 1,
          detalles := [{ material := 0, cantidad := 5, costo_unitario_destino := none }],
          aplicado := false } = Except.ok (db', t') ∧
      (db'.existencias 0 0).stock = (dbVacia.existencias 0 0).stock - 5 ∧
      (db'.existencias 0 1).stock = (dbVacia.existencias 0 1).stock + 5 ∧
      (db'.existencias 0 0).stock + (db'.existencias 0 1).stock =
        (dbVacia.existencias 0 0).stock + (dbVacia.existencias 0 1).stock := by
  have h := aplicar_traspaso_single true dbVacia 0 1
    { material := 0, cantidad := 5, costo_unitario_destino := none } (by simp)
  obtain ⟨h1, h2, h3⟩ := C7_transfer_conservation true dbVacia _ 0 1
    { material := 0, cantidad := 5, costo_unitario_destino := none } _
    (by norm_num) h
  exact ⟨_, _, h, h1, h2, h3⟩

/-- C8: in a successful single-line transfer between distinct warehouses, the
destination ENTRADA ledger row is valued at the explicit destination override
when present, else at the source row's average cost as it stands after the
issue leg (which equals the source's average cost before the transfer, since
issues do not change the average). -/
theorem C8_transfer_valuation (allowNeg : Bool) (db db' : DB) (ao ad : Nat)
    (d : TraspasoDetalle) (t' : Traspaso) (hneq : ao ≠ ad)
    (h : aplicar_traspaso allowNeg db
        { almacen_origen := ao, almacen_destino := ad, detalles := [d],
          aplicado := false } = Except.ok (db', t')) :
    ∃ kOut kIn, db'.kardex = db.kardex ++ [kOut, kIn] ∧
      kIn.almacen = ad ∧ kIn.tipo = Tipo.ENTRADA ∧
      kIn.cantidad_entrada = d.cantidad ∧
      kIn.costo_unitario =
        d.costo_unitario_destino.getD
          ((db'.existencias d.material ao).costo_promedio) ∧
      (db'.existencias d.material ao).costo_promedio =
        (db.existencias d.material ao).costo_promedio := by
  by_cases hok : ((db.existencias d.material ao).stock - d.cantidad < 0 ∧
      allowNeg = false)
  · rw [aplicar_traspaso_single_error allowNeg db ao ad d hok] at h
    cases h
  · rw [aplicar_traspaso_single allowNeg db ao ad d hok] at h
    injection h with h1
    have hdb : db' = traspasoSingleResultDB db ao ad d := (congrArg Prod.fst h1).symm
    subst hdb
    refine ⟨_, _, traspasoSingleResultDB_kardex db ao ad d hneq, rfl, rfl, rfl, ?_, ?_⟩
    · rw [traspasoSingleResultDB_origen db ao ad d hneq]
    · rw [traspasoSingleResultDB_origen db ao ad d hneq]

/-- C8 witness: the transfer of the C7 witness; with no override, the
destination row is valued at the source average cost. -/
theorem C8_transfer_valuation_witness :
    ∃ db' t' kOut kIn,
      aplicar_traspaso true dbVacia
        { almacen_origen := 0, almacen_destino := 1,
          detalles := [{ material := 0, cantidad := 5, costo_unitario_destino := none }],
          aplicado := false } = Except.ok (db', t') ∧
      db'.kardex = dbVacia.kardex ++ [kOut, kIn] ∧
      kIn.almacen = 1 ∧ kIn.tipo = Tipo.ENTRADA ∧
      kIn.cantidad_entrada = (5 : ℚ) ∧
      kIn.costo_unitario =
        (Option.getD none ((db'.existencias 0 0).costo_promedio) : ℚ) ∧
      (db'.existencias 0 0).costo_promedio =
        (dbVacia.existencias 0 0).costo_promedio := by
  have h := aplicar_traspaso_single true dbVacia 0 1
    { material := 0, cantidad := 5, costo_unitario_destino := none } (by simp)
  obtain ⟨kOut, kIn, h1, h2, h3, h4, h5, h6⟩ := C8_transfer_valuation true dbVacia _ 0 1
    { material := 0, cantidad := 5, costo_unitario_destino := none } _
    (by norm_num) h
  exact ⟨_, _, kOut, kIn, h, h1, h2, h3, h4, h5, h6⟩

/-- C10: an AJUSTE line with positive quantity whose unit cost is supplied but
exactly zero is processed identically to one with an absent unit cost — as a
receipt whose incoming cost is the row's current average cost, not the
literal zero — whereas a transfer line's explicit destination override of
exactly zero is honored literally: the destination ledger row is costed 0. -/
theorem C10_zero_cost_policy (allowNeg : Bool) (alm : Nat) (ex : Existencia)
    (m : Nat) (cant : ℚ) (hpos : 0 < cant)
    (db db' : DB) (ao ad : Nat) (d : TraspasoDetalle) (t' : Traspaso)
    (hneq : ao ≠ ad) (hzero : d.costo_unitario_destino = some 0)
    (h : aplicar_traspaso allowNeg db
        { almacen_origen := ao, almacen_destino := ad, detalles := [d],
          aplicado := false } = Except.ok (db', t')) :
    (aplicarDetalle allowNeg Tipo.AJUSTE alm ex
        { material := m, cantidad := cant, costo_unitario := some 0 } =
      aplicarDetalle allowNeg Tipo.AJUSTE alm ex
        { material := m, cantidad := cant, costo_unitario := none }) ∧
    (∃ ex' k, aplicarDetalle allowNeg Tipo.AJUSTE alm ex
        { material := m, cantidad := cant, costo_unitario := some 0 } =
        Except.ok (ex', k) ∧ k.costo_unitario = ex.costo_promedio) ∧
    (∃ kOut kIn, db'.kardex = db.kardex ++ [kOut, kIn] ∧
      kIn.tipo = Tipo.ENTRADA ∧ kIn.costo_unitario = 0) := by
  have hz : costoEfectivo Tipo.AJUSTE ex
      { material := m, cantidad := cant, costo_unitario := some 0 } =
      ex.costo_promedio := by
    simp [costoEfectivo, falsy, hpos]
  refine ⟨?_, ?_, ?_⟩
  · rw [aplicarDetalle_receipt allowNeg Tipo.AJUSTE alm ex
      { material := m, cantidad := cant, costo_unitario := some 0 }
      (Or.inr ⟨rfl, hpos⟩),
      aplicarDetalle_receipt allowNeg Tipo.AJUSTE alm ex
      { material := m, cantidad := cant, costo_unitario := none }
      (Or.inr ⟨rfl, hpos⟩)]
    simp [costoEfectivo, falsy, hpos]
  · refine ⟨_, _, aplicarDetalle_receipt allowNeg Tipo.AJUSTE alm ex
      { material := m, cantidad := cant, costo_unitario := some 0 }
      (Or.inr ⟨rfl, hpos⟩), ?_⟩
    simpa using hz
  · by_cases hok : ((db.existencias d.material ao).stock - d.cantidad < 0 ∧
        allowNeg = false)
    · rw [aplicar_traspaso_single_error allowNeg db ao ad d hok] at h
      cases h
    · rw [aplicar_traspaso_single allowNeg db ao ad d hok] at h
      injection h with h1
      have hdb : db' = traspasoSingleResultDB db ao ad d := (congrArg Prod.fst h1).symm
      subst hdb
      refine ⟨_, _, traspasoSingleResultDB_kardex db ao ad d hneq, rfl, ?_⟩
      simp [hzero]

/-- C10 witness: an AJUSTE of 1 unit at explicit zero cost onto (2 units,
average 3), and a transfer of 5 units with an explicit zero override. -/
theorem C10_zero_cost_policy_witness :
    (aplicarDetalle true Tipo.AJUSTE 0 { stock := 2, costo_promedio := 3 }
        { material := 0, cantidad := 1, costo_unitario := some 0 } =
      aplicarDetalle true Tipo.AJUSTE 0 { stock := 2, costo_promedio := 3 }
        { material := 0, cantidad := 1, costo_unitario := none }) ∧
    (∃ ex' k, aplicarDetalle true Tipo.AJUSTE 0 { stock := 2, costo_promedio := 3 }
        { material := 0, cantidad := 1, costo_unitario := some 0 } =
        Except.ok (ex', k) ∧ k.costo_unitario = (3 : ℚ)) ∧
    (∃ kOut kIn,
      (traspasoSingleResultDB dbVacia 0 1
        { material := 0, cantidad := 5, costo_unitario_destino := some 0 }).kardex =
        dbVacia.kardex ++ [kOut, kIn] ∧
      kIn.tipo = Tipo.ENTRADA ∧ kIn.costo_unitario = 0) := by
  have h := aplicar_traspaso_single true dbVacia 0 1
    { material := 0, cantidad := 5, costo_unitario_destino := some 0 } (by simp)
  exact C10_zero_cost_policy true 0 { stock := 2, costo_promedio := 3 } 0 1
    (by norm_num) dbVacia _ 0 1
    { material := 0, cantidad := 5, costo_unitario_destino := some 0 } _
    (by norm_num) rfl h

end ObrasStock
